import Mathlib

/-!
Verification of the Northwind Node.js API's query-building, pagination and
derived-field layer, shallowly embedded in Lean.

Conventions of the embedding:
* SQL rows are Lean structures; nullable columns are `Option`.
* Timestamps are integer milliseconds (`ℤ`); calendar dates are
  `(year, month, day)` triples ordered lexicographically (valid dates only;
  JS `Date` month/day overflow normalisation is out of scope).
* Money (`DECIMAL`) values are `ℚ`.
* Request handlers are pure functions from a database value and a request to
  a response together with the successor database; the store transaction a
  handler opens is tracked explicitly by a `TxOutcome` field.

The file has two parts: all definitions first, then the theorems.
-/

namespace NW

/-- A minimal HTTP response: status code and the error/success message. -/
structure ApiResponse where
  status : Nat
  message : String
deriving Repr, DecidableEq

/-- What happened to the store transaction a handler opened:
it was committed, rolled back, or never released (left open). -/
inductive TxOutcome where
  | committed
  | rolledBack
  | leftOpen
deriving Repr, DecidableEq

/-! ### Product stock status ladders (C2) -/

/-- `getProductStockStatus` from `src/routes/products.js` lines 58-64.
`reorderLevel` is `Option` because the column is nullable and the source
reads `product.reorderLevel || 0`. -/
def getProductStockStatus (discontinued : Bool) (unitsInStock : Nat)
    (reorderLevel : Option Nat) : String :=
  if discontinued then "Discontinued"
  else if unitsInStock = 0 then "Out of Stock"
  else if unitsInStock < 10 then "Low Stock"
  else if unitsInStock ≤ reorderLevel.getD 0 then "Reorder Required"
  else "In Stock"

/-- `getProductStockStatus` from `src/routes/categories.js` lines 55-60:
the variant used by the category endpoints, which has no
Reorder Required branch at all. -/
def categoriesGetProductStockStatus (discontinued : Bool)
    (unitsInStock : Nat) : String :=
  if discontinued then "Discontinued"
  else if unitsInStock = 0 then "Out of Stock"
  else if unitsInStock < 10 then "Low Stock"
  else "In Stock"

/-- The ladder exactly as the spec words it (Discontinued, then Out of
Stock, then Reorder Required, then Low Stock, then In Stock), written from
the spec's sentence for comparison with the source functions. -/
def specStockStatusLadder (discontinued : Bool) (unitsInStock : Nat)
    (reorderLevel : Nat) : String :=
  if discontinued then "Discontinued"
  else if unitsInStock = 0 then "Out of Stock"
  else if unitsInStock ≤ reorderLevel then "Reorder Required"
  else if unitsInStock < 10 then "Low Stock"
  else "In Stock"

/-- The amended ladder for `src/routes/products.js`: Low Stock is tested
before Reorder Required, so Reorder Required is reachable only for
`10 ≤ unitsInStock ≤ reorderLevel`. -/
def productsLadderAmended (discontinued : Bool) (unitsInStock : Nat)
    (reorderLevel : Nat) : String :=
  if discontinued then "Discontinued"
  else if unitsInStock = 0 then "Out of Stock"
  else if unitsInStock < 10 then "Low Stock"
  else if unitsInStock ≤ reorderLevel then "Reorder Required"
  else "In Stock"

/-! ### Pagination envelope (C5) -/

/-- `Math.ceil(count / limit)` from the list handlers
(`src/routes/products.js` line 336), on exact rationals. -/
def totalPagesOf (total limit : Nat) : Nat :=
  Nat.ceil ((total : ℚ) / (limit : ℚ))

/-- `const offset = (page - 1) * limit` from the list handlers
(`src/routes/products.js` line 259). -/
def offsetOf (page limit : Nat) : Nat :=
  (page - 1) * limit

/-! ### Years of service (C7) -/

/-- `365.25 * 24 * 60 * 60 * 1000`: the millisecond divisor in
`Employee.prototype.getYearsOfService`. -/
def msPerYear : ℤ := 31557600000

/-- Milliseconds per day. -/
def msPerDay : ℤ := 86400000

/-- `Employee.prototype.getYearsOfService` from `src/unnamed/part_000`
lines 189-194: `Math.floor((today - hireDate) / (365.25 * 24 * 60 * 60 *
1000))` on millisecond timestamps; `Math.floor` is floor division. -/
def getYearsOfService (nowMs hireMs : ℤ) : ℤ :=
  Int.fdiv (nowMs - hireMs) msPerYear

/-! ### Employee age filters (C6) -/

/-- A calendar date; on valid dates, JS `Date` timestamp order is
lexicographic order on `(year, month, day)`. -/
structure SimpleDate where
  year : ℤ
  month : ℤ
  day : ℤ
deriving Repr, DecidableEq

/-- Timestamp order on valid calendar dates. -/
def dateLe (a b : SimpleDate) : Prop :=
  a.year < b.year ∨ (a.year = b.year ∧
    (a.month < b.month ∨ (a.month = b.month ∧ a.day ≤ b.day)))

instance (a b : SimpleDate) : Decidable (dateLe a b) := by
  unfold dateLe
  infer_instance

/-- `Employee.prototype.getAge` from `src/unnamed/part_000` lines 177-187:
year difference, decremented when today's month/day precede the birth
month/day. -/
def getAge (birth today : SimpleDate) : ℤ :=
  if today.month - birth.month < 0 ∨
      (today.month - birth.month = 0 ∧ today.day < birth.day)
  then today.year - birth.year - 1
  else today.year - birth.year

/-- `new Date(currentDate.getFullYear() - age, currentDate.getMonth(),
currentDate.getDate())` from `src/routes/employees.js` lines 237 and 242:
the birth-date bound derived from an integer-years bound. -/
def ageBoundDate (today : SimpleDate) (a : ℤ) : SimpleDate :=
  ⟨today.year - a, today.month, today.day⟩

/-- `where.birthDate[Op.gte] = minBirthDate` (maxAge branch,
`src/routes/employees.js` lines 236-240): the row passes when
`birthDate >= today - maxAge years`. -/
def maxAgeFilterOk (today : SimpleDate) (a : ℤ) (birth : SimpleDate) : Prop :=
  dateLe (ageBoundDate today a) birth

/-- `where.birthDate[Op.lte] = maxBirthDate` (minAge branch,
`src/routes/employees.js` lines 241-245): the row passes when
`birthDate <= today - minAge years`. -/
def minAgeFilterOk (today : SimpleDate) (a : ℤ) (birth : SimpleDate) : Prop :=
  dateLe birth (ageBoundDate today a)

instance (today : SimpleDate) (a : ℤ) (birth : SimpleDate) :
    Decidable (maxAgeFilterOk today a birth) := by
  unfold maxAgeFilterOk
  infer_instance

instance (today : SimpleDate) (a : ℤ) (birth : SimpleDate) :
    Decidable (minAgeFilterOk today a birth) := by
  unfold minAgeFilterOk
  infer_instance

/-! ### Product list where-clause (C3)

Embedding of the where-clause construction of `GET /products`
(`src/routes/products.js` lines 262-287) and of the row predicate the
resulting Sequelize `where` object denotes. -/

/-- A product row, with the columns the list filters touch. -/
structure ProductRow where
  productName : List Char
  quantityPerUnit : List Char
  categoryId : Option Nat
  supplierId : Option Nat
  discontinued : Bool
  unitsInStock : Nat
  unitPrice : ℚ
deriving DecidableEq

/-- Does `pat` occur at the head of `s`? (helper for SQL `LIKE '%pat%'`). -/
def headMatch : List Char → List Char → Bool
  | [], _ => true
  | _ :: _, [] => false
  | a :: as, b :: bs => a == b && headMatch as bs

/-- Does `pat` occur anywhere in `s`? — the semantics of
`{ [Op.like]: %pat% }`. -/
def subMatch (pat : List Char) : List Char → Bool
  | [] => headMatch pat []
  | b :: bs => headMatch pat (b :: bs) || subMatch pat bs

/-- The validated query parameters of `GET /products` that feed the
where-clause (each `none` when absent from the query string). -/
structure ProductListQuery where
  search : Option (List Char) := none
  categoryId : Option Nat := none
  supplierId : Option Nat := none
  discontinued : Option Bool := none
  inStock : Option Bool := none
  lowStock : Option Bool := none
  minPrice : Option ℚ := none
  maxPrice : Option ℚ := none
deriving DecidableEq

/-- The three shapes `where.unitsInStock` can take in the source:
`0` (inStock=false), `{ [Op.gt]: 0 }` (inStock=true), and
`{ [Op.and]: [{ [Op.gt]: 0 }, { [Op.lt]: 10 }] }` (lowStock=true). -/
inductive StockCond where
  | exact0
  | gt0
  | between
deriving Repr, DecidableEq

/-- The Sequelize `where` object the handler builds. -/
structure WhereClause where
  searchQ : Option (List Char) := none
  categoryId : Option Nat := none
  supplierId : Option Nat := none
  discontinued : Option Bool := none
  unitsInStock : Option StockCond := none
  priceGte : Option ℚ := none
  priceLte : Option ℚ := none
deriving DecidableEq

/-- `where.unitsInStock = inStock === 'true' ? { [Op.gt]: 0 } : 0`
(`src/routes/products.js` line 276). -/
def inStockCond (b : Bool) : StockCond :=
  if b then StockCond.gt0 else StockCond.exact0

/-- Where-clause construction from `src/routes/products.js` lines 262-287,
branch for branch in source order; note that the `lowStock === 'true'`
branch assigns `where.unitsInStock` after the `inStock` branch did. -/
def buildWhere (q : ProductListQuery) : WhereClause :=
  let w0 : WhereClause := {}
  let w1 := match q.search with
    | some s => { w0 with searchQ := some s }
    | none => w0
  let w2 := match q.categoryId with
    | some n => { w1 with categoryId := some n }
    | none => w1
  let w3 := match q.supplierId with
    | some n => { w2 with supplierId := some n }
    | none => w2
  let w4 := match q.discontinued with
    | some b => { w3 with discontinued := some b }
    | none => w3
  let w5 := match q.inStock with
    | some b => { w4 with unitsInStock := some (inStockCond b) }
    | none => w4
  let w6 := if q.lowStock = some true
    then { w5 with unitsInStock := some StockCond.between }
    else w5
  let w7 := match q.minPrice with
    | some p => { w6 with priceGte := some p }
    | none => w6
  match q.maxPrice with
    | some p => { w7 with priceLte := some p }
    | none => w7

/-- Truth of one `unitsInStock` condition on a row. -/
def stockCondHolds : StockCond → Nat → Bool
  | StockCond.exact0, u => u == 0
  | StockCond.gt0, u => decide (0 < u)
  | StockCond.between, u => decide (0 < u) && decide (u < 10)

/-- The set of rows a `where` object denotes: the conjunction of its
present predicates, with `search` an OR across productName and
quantityPerUnit. -/
def rowMatches (w : WhereClause) (p : ProductRow) : Bool :=
  (match w.searchQ with
    | none => true
    | some s => subMatch s p.productName || subMatch s p.quantityPerUnit) &&
  (match w.categoryId with
    | none => true
    | some n => p.categoryId == some n) &&
  (match w.supplierId with
    | none => true
    | some n => p.supplierId == some n) &&
  (match w.discontinued with
    | none => true
    | some b => p.discontinued == b) &&
  (match w.unitsInStock with
    | none => true
    | some c => stockCondHolds c p.unitsInStock) &&
  (match w.priceGte with
    | none => true
    | some q => decide (q ≤ p.unitPrice)) &&
  (match w.priceLte with
    | none => true
    | some q => decide (p.unitPrice ≤ q))

/-- One filter accepted by the product list endpoint. -/
inductive ProductFilter where
  | search (q : List Char)
  | categoryId (n : Nat)
  | supplierId (n : Nat)
  | discontinued (b : Bool)
  | inStock (b : Bool)
  | lowStock (b : Bool)
  | minPrice (p : ℚ)
  | maxPrice (p : ℚ)
deriving DecidableEq

/-- Put one filter's value into the parsed query record. -/
def setFilter : ProductFilter → ProductListQuery → ProductListQuery
  | ProductFilter.search s, w => { w with search := some s }
  | ProductFilter.categoryId n, w => { w with categoryId := some n }
  | ProductFilter.supplierId n, w => { w with supplierId := some n }
  | ProductFilter.discontinued b, w => { w with discontinued := some b }
  | ProductFilter.inStock b, w => { w with inStock := some b }
  | ProductFilter.lowStock b, w => { w with lowStock := some b }
  | ProductFilter.minPrice p, w => { w with minPrice := some p }
  | ProductFilter.maxPrice p, w => { w with maxPrice := some p }

/-- The request carrying filter `f` alone. -/
def queryOf (f : ProductFilter) : ProductListQuery :=
  setFilter f {}

/-- The request carrying the pair of filters `{f, g}`. -/
def pairQuery (f g : ProductFilter) : ProductListQuery :=
  setFilter g (queryOf f)

/-- Which query parameter a filter belongs to. -/
def paramIdx : ProductFilter → Nat
  | ProductFilter.search _ => 0
  | ProductFilter.categoryId _ => 1
  | ProductFilter.supplierId _ => 2
  | ProductFilter.discontinued _ => 3
  | ProductFilter.inStock _ => 4
  | ProductFilter.lowStock _ => 5
  | ProductFilter.minPrice _ => 6
  | ProductFilter.maxPrice _ => 7

/-- The one interaction in which the source's sequential assignment to
`where.unitsInStock` loses information: `inStock=false` together with
`lowStock=true` (the lowStock branch overwrites the `unitsInStock: 0`
predicate). -/
def collidesB : ProductFilter → ProductFilter → Bool
  | ProductFilter.inStock b, ProductFilter.lowStock c => !b && c
  | ProductFilter.lowStock c, ProductFilter.inStock b => !b && c
  | _, _ => false

/-- A fixture row for the C3 counterexample: five units in stock. -/
def exampleRow : ProductRow where
  productName := []
  quantityPerUnit := []
  categoryId := some 1
  supplierId := some 1
  discontinued := false
  unitsInStock := 5
  unitPrice := 18

/-! ### Orders and delete handlers (C1, C8, C9, C10)

Embedding of `routes/orders.js` (`src/unnamed/part_004`), the DELETE
handlers of `routes/products.js`, `routes/categories.js`,
`routes/employees.js` and `routes/customers.js`, and
`Order.prototype.getOrderStatus` from `src/models/Order.js`. -/

/-- An order row (`SalesOrder`); dates are millisecond timestamps. -/
structure OrderRow where
  orderId : Nat
  custId : Nat
  employeeId : Option Nat
  shipperId : Nat
  orderDate : Option Int
  requiredDate : Option Int
  shippedDate : Option Int
  freight : ℚ
deriving DecidableEq

/-- An `OrderDetail` row. -/
structure OrderDetailRow where
  orderId : Nat
  productId : Nat
  quantity : Nat
  unitPrice : ℚ
  discount : ℚ
deriving DecidableEq

/-- A product row, with the columns the order/product handlers read. -/
structure ProductRec where
  productId : Nat
  productName : String
  categoryId : Option Nat
  discontinued : Bool
deriving DecidableEq

/-- An employee row, with the columns the delete handler reads. -/
structure EmployeeRec where
  employeeId : Nat
  mgrId : Option Nat
deriving DecidableEq

/-- The store: one list per table (customers, shippers and categories are
kept as primary keys only). -/
structure Db where
  customers : List Nat
  employees : List EmployeeRec
  shippers : List Nat
  categories : List Nat
  products : List ProductRec
  orders : List OrderRow
  orderDetails : List OrderDetailRow
deriving DecidableEq

/-- `Order.prototype.getOrderStatus` from `src/models/Order.js` lines
134-138 (a `Date` is truthy exactly when the column is non-null). -/
def getOrderStatus (o : OrderRow) : String :=
  if o.shippedDate.isSome then "Shipped"
  else if o.orderDate.isSome && !o.shippedDate.isSome then "Processing"
  else "Pending"

/-- `models.Order.findByPk(id)`. -/
def findOrder (db : Db) (id : Nat) : Option OrderRow :=
  db.orders.find? (fun o => o.orderId == id)

/-- The employee-exists check shared by the order handlers: missing only
when an id was supplied and no such employee exists. -/
def employeeMissing (db : Db) (e : Option Nat) : Bool :=
  match e with
  | none => false
  | some eid => !(db.employees.any (fun r => r.employeeId == eid))

/-- The shipper-exists check of `PUT /orders/:id`. -/
def shipperMissing (db : Db) (s : Option Nat) : Bool :=
  match s with
  | none => false
  | some sid => !(db.shippers.any (fun r => r == sid))

/-- One entry of the `orderDetails` array of a `POST /orders` body. -/
structure OrderDetailReq where
  productId : Nat
  quantity : Nat
  unitPrice : ℚ
  discount : Option ℚ
deriving DecidableEq

/-- A validated `POST /orders` body. -/
structure OrderReqBody where
  custId : Nat
  employeeId : Option Nat
  orderDate : Option Int
  requiredDate : Option Int
  shippedDate : Option Int
  shipperId : Nat
  freight : Option ℚ
  orderDetails : List OrderDetailReq
deriving DecidableEq

/-- `products.length !== productIds.length` from `POST /orders`: the rows
found by `WHERE productId IN (...)` are fewer than the requested ids. -/
def missingProducts (db : Db) (b : OrderReqBody) : Bool :=
  (db.products.filter
      (fun p => p.productId ∈ b.orderDetails.map OrderDetailReq.productId)).length
    != (b.orderDetails.map OrderDetailReq.productId).length

/-- Names of the discontinued products among the found ones
(`POST /orders`). -/
def discontinuedNames (db : Db) (b : OrderReqBody) : List String :=
  ((db.products.filter
      (fun p => p.productId ∈ b.orderDetails.map OrderDetailReq.productId)).filter
    (fun p => p.discontinued)).map (fun p => p.productName)

/-- The order row `models.Order.create` inserts for a `POST /orders` body:
`orderDate` defaults to `new Date()` (`now`) when absent, `freight`
defaults to `0.00` per the model. -/
def createdOrder (b : OrderReqBody) (now : Int) (newOrderId : Nat) : OrderRow :=
  ⟨newOrderId, b.custId, b.employeeId, b.shipperId,
    some (b.orderDate.getD now), b.requiredDate, b.shippedDate,
    b.freight.getD 0⟩

/-- The detail rows `models.OrderDetail.bulkCreate` inserts
(`discount: detail.discount || 0`). -/
def createdDetails (b : OrderReqBody) (newOrderId : Nat) : List OrderDetailRow :=
  b.orderDetails.map
    (fun d => ⟨newOrderId, d.productId, d.quantity, d.unitPrice, d.discount.getD 0⟩)

/-- Outcome of a handler that opened a transaction. -/
structure HandlerResult where
  resp : ApiResponse
  tx : TxOutcome
  db : Db
  created : Option OrderRow
deriving DecidableEq

/-- `POST /orders` from `src/unnamed/part_004` lines 1733-1886. The
handler opens a transaction first; each early validation-failure `return`
in the source sends the 400 response without committing or rolling back,
which the embedding records as `TxOutcome.leftOpen`. -/
def postOrder (db : Db) (now : Int) (b : OrderReqBody) (newOrderId : Nat) :
    HandlerResult :=
  if b.custId ∉ db.customers then
    ⟨⟨400, "Customer not found"⟩, TxOutcome.leftOpen, db, none⟩
  else if employeeMissing db b.employeeId then
    ⟨⟨400, "Employee not found"⟩, TxOutcome.leftOpen, db, none⟩
  else if b.shipperId ∉ db.shippers then
    ⟨⟨400, "Shipper not found"⟩, TxOutcome.leftOpen, db, none⟩
  else if missingProducts db b then
    ⟨⟨400, "One or more products not found"⟩, TxOutcome.leftOpen, db, none⟩
  else if 0 < (discontinuedNames db b).length then
    ⟨⟨400, "Cannot order discontinued products: "
        ++ String.intercalate ", " (discontinuedNames db b)⟩,
      TxOutcome.leftOpen, db, none⟩
  else
    ⟨⟨201, "Order created successfully"⟩, TxOutcome.committed,
      { db with orders := db.orders ++ [createdOrder b now newOrderId]
                orderDetails := db.orderDetails ++ createdDetails b newOrderId },
      some (createdOrder b now newOrderId)⟩

/-- Outcome of a handler that opened a transaction but creates nothing. -/
structure DeleteResult where
  resp : ApiResponse
  tx : TxOutcome
  db : Db
deriving DecidableEq

/-- `DELETE /orders/:id` from `src/unnamed/part_004` lines 2060-2112. The
404 and `Cannot delete shipped orders` returns in the source do not
release the transaction opened at the top of the handler
(`TxOutcome.leftOpen`). -/
def deleteOrder (db : Db) (id : Nat) : DeleteResult :=
  match findOrder db id with
  | none => ⟨⟨404, "Order not found"⟩, TxOutcome.leftOpen, db⟩
  | some o =>
    if o.shippedDate.isSome then
      ⟨⟨400, "Cannot delete shipped orders"⟩, TxOutcome.leftOpen, db⟩
    else
      ⟨⟨200, "Order deleted successfully"⟩, TxOutcome.committed,
        { db with
            orders := db.orders.filter (fun x => x.orderId != id)
            orderDetails := db.orderDetails.filter (fun x => x.orderId != id) }⟩

/-- A validated `PUT /orders/:id` body (ship-address fields omitted: the
shipped-order guard fires before any of them are read). -/
structure PutBody where
  employeeId : Option Nat
  requiredDate : Option Int
  shippedDate : Option Int
  shipperId : Option Nat
  freight : Option ℚ
deriving DecidableEq

/-- `models.Order.update(req.body)`: fields present in the body replace
the stored ones. -/
def applyOrderUpdate (o : OrderRow) (b : PutBody) : OrderRow :=
  { o with
      employeeId := match b.employeeId with
        | some e => some e
        | none => o.employeeId
      requiredDate := match b.requiredDate with
        | some r => some r
        | none => o.requiredDate
      shippedDate := match b.shippedDate with
        | some s => some s
        | none => o.shippedDate
      shipperId := b.shipperId.getD o.shipperId
      freight := b.freight.getD o.freight }

/-- Outcome of a handler that opens no transaction. -/
structure PlainResult where
  resp : ApiResponse
  db : Db
deriving DecidableEq

/-- `PUT /orders/:id` from `src/unnamed/part_004` lines 1938-2038 (it
opens no transaction). The shipped-order guard is
`existingOrder.shippedDate && req.body.shippedDate !==
existingOrder.shippedDate`, embedded as: the stored `shippedDate` is
non-null and the body does not carry that same value. -/
def putOrder (db : Db) (id : Nat) (b : PutBody) : PlainResult :=
  match findOrder db id with
  | none => ⟨⟨404, "Order not found"⟩, db⟩
  | some o =>
    if o.shippedDate.isSome ∧ b.shippedDate ≠ o.shippedDate then
      ⟨⟨400, "Cannot modify shipped orders"⟩, db⟩
    else if employeeMissing db b.employeeId then
      ⟨⟨400, "Employee not found"⟩, db⟩
    else if shipperMissing db b.shipperId then
      ⟨⟨400, "Shipper not found"⟩, db⟩
    else
      ⟨⟨200, "Order updated successfully"⟩,
        { db with orders :=
            db.orders.map (fun x =>
              if x.orderId == id then applyOrderUpdate x b else x) }⟩

/-- `models.OrderDetail.count({ where: { productId: id } })`. -/
def prodOrderDetailCount (db : Db) (pid : Nat) : Nat :=
  (db.orderDetails.filter (fun d => d.productId == pid)).length

/-- `models.Product.count({ where: { categoryId: id } })`. -/
def catProductCount (db : Db) (cid : Nat) : Nat :=
  (db.products.filter (fun p => p.categoryId == some cid)).length

/-- `models.Order.count({ where: { employeeId: id } })`. -/
def empOrderCount (db : Db) (eid : Nat) : Nat :=
  (db.orders.filter (fun o => o.employeeId == some eid)).length

/-- `models.Employee.count({ where: { mgrId: id } })`. -/
def empSubCount (db : Db) (eid : Nat) : Nat :=
  (db.employees.filter (fun e => e.mgrId == some eid)).length

/-- `models.Order.count({ where: { custId: id } })`. -/
def custOrderCount (db : Db) (cid : Nat) : Nat :=
  (db.orders.filter (fun o => o.custId == cid)).length

/-- The 400 message of the blocked product delete. -/
def prodBlockMsg (cnt : Nat) : String :=
  "Cannot delete product with " ++ toString cnt
    ++ " order records. Use force=true to override or consider marking as discontinued."

/-- The 400 message of the blocked category delete. -/
def catBlockMsg (cnt : Nat) : String :=
  "Cannot delete category with " ++ toString cnt
    ++ " products. Use force=true to override."

/-- The 400 message of the blocked employee delete. -/
def empBlockMsg (cnt : Nat) : String :=
  "Cannot delete employee with " ++ toString cnt
    ++ " orders. Reassign orders first."

/-- The 400 message of the blocked customer delete. -/
def custBlockMsg (cnt : Nat) : String :=
  "Cannot delete customer with " ++ toString cnt
    ++ " orders. Remove or reassign orders first."

/-- `DELETE /products/:id` from `src/routes/products.js` lines 826-894:
404 when missing, 400 with the dependent-row count when order details
exist and `force` is not set; with `force=true` the order details are
destroyed and the product deleted, all inside a committed transaction. -/
def deleteProduct (db : Db) (id : Nat) (force : Bool) : DeleteResult :=
  match db.products.find? (fun p => p.productId == id) with
  | none => ⟨⟨404, "Product not found"⟩, TxOutcome.rolledBack, db⟩
  | some _ =>
    if 0 < prodOrderDetailCount db id ∧ ¬ force then
      ⟨⟨400, prodBlockMsg (prodOrderDetailCount db id)⟩, TxOutcome.rolledBack, db⟩
    else
      ⟨⟨200, "Product deleted successfully"⟩, TxOutcome.committed,
        { db with
            orderDetails :=
              if force ∧ 0 < prodOrderDetailCount db id
              then db.orderDetails.filter (fun d => d.productId != id)
              else db.orderDetails
            products := db.products.filter (fun p => p.productId != id) }⟩

/-- `DELETE /categories/:id` from `src/routes/categories.js` lines
590-660: 400 with the product count when products reference the category
and `force` is not set; with `force=true` those products get
`categoryId: null` and the category is deleted. -/
def deleteCategory (db : Db) (id : Nat) (force : Bool) : DeleteResult :=
  if id ∈ db.categories then
    if 0 < catProductCount db id ∧ ¬ force then
      ⟨⟨400, catBlockMsg (catProductCount db id)⟩, TxOutcome.rolledBack, db⟩
    else
      ⟨⟨200, "Category deleted successfully"⟩, TxOutcome.committed,
        { db with
            products :=
              if force ∧ 0 < catProductCount db id
              then db.products.map (fun p =>
                if p.categoryId == some id then { p with categoryId := none } else p)
              else db.products
            categories := db.categories.filter (fun c => c != id) }⟩
  else ⟨⟨404, "Category not found"⟩, TxOutcome.rolledBack, db⟩

/-- `DELETE /employees/:id` from `src/routes/employees.js` lines 748-805:
the handler declares no `force` parameter; orders or subordinates always
block the delete with a 400 carrying the dependent count. -/
def deleteEmployee (db : Db) (id : Nat) : PlainResult :=
  if 0 < empOrderCount db id then
    ⟨⟨400, empBlockMsg (empOrderCount db id)⟩, db⟩
  else if 0 < empSubCount db id then
    ⟨⟨400, "Cannot delete employee with " ++ toString (empSubCount db id)
        ++ " subordinates. Reassign subordinates first."⟩, db⟩
  else if (db.employees.filter (fun e => e.employeeId == id)).length = 0 then
    ⟨⟨404, "Employee not found"⟩, db⟩
  else
    ⟨⟨200, "Employee deleted successfully"⟩,
      { db with employees := db.employees.filter (fun e => e.employeeId != id) }⟩

/-- `DELETE /customers/:id` from `src/unnamed/part_004` lines 1153-1195:
no `force` parameter; existing orders always block the delete. -/
def deleteCustomer (db : Db) (id : Nat) : PlainResult :=
  if 0 < custOrderCount db id then
    ⟨⟨400, custBlockMsg (custOrderCount db id)⟩, db⟩
  else if id ∈ db.customers then
    ⟨⟨200, "Customer deleted successfully"⟩,
      { db with customers := db.customers.filter (fun c => c != id) }⟩
  else ⟨⟨404, "Customer not found"⟩, db⟩

/-- Fixture for C1: no customers, shipper 1, and one already-shipped
order (id 7). -/
def c1Db : Db where
  customers := []
  employees := []
  shippers := [1]
  categories := []
  products := []
  orders := [⟨7, 1, none, 1, some 0, none, some 5, 0⟩]
  orderDetails := []

/-- A `POST /orders` body referencing the missing customer 1. -/
def c1Body : OrderReqBody :=
  ⟨1, none, none, none, none, 1, none, [⟨1, 1, 10, none⟩]⟩

/-- Fixture for C8's counterexample: employee 1 has one order. -/
def c8Db : Db where
  customers := [2]
  employees := [⟨1, none⟩]
  shippers := []
  categories := []
  products := []
  orders := [⟨7, 2, some 1, 1, none, none, none, 0⟩]
  orderDetails := []

/-- Fixture for C8's witness: product 5 (category 3) with one order
detail. -/
def c8ForceDb : Db where
  customers := []
  employees := []
  shippers := []
  categories := [3]
  products := [⟨5, "Chai", some 3, false⟩]
  orders := []
  orderDetails := [⟨7, 5, 2, 10, 0⟩]

/-- Fixture for C9/C10: customer 2, employee 1, shipper 4, product 5, and
shipped order 7. -/
def c9Db : Db where
  customers := [2]
  employees := [⟨1, none⟩]
  shippers := [4]
  categories := []
  products := [⟨5, "Chai", none, false⟩]
  orders := [⟨7, 2, some 1, 4, some 100, none, some 500, 3⟩]
  orderDetails := [⟨7, 5, 2, 10, 0⟩]

/-- A valid `POST /orders` body against `c9Db` (no shipped date). -/
def c10Body : OrderReqBody :=
  ⟨2, some 1, none, none, none, 4, some 1, [⟨5, 3, 10, some 0⟩]⟩

/-! # Theorems -/

/-! ### C2 -/

/-- C2 counterexample: a non-discontinued product with
`unitsInStock = 5 ≤ reorderLevel = 5` gets `"Low Stock"` from the source
function, not the `"Reorder Required"` the claimed precedence ladder
produces: the source tests Low Stock before Reorder Required. -/
theorem c2_counterexample :
    getProductStockStatus false 5 (some 5) = "Low Stock" ∧
    specStockStatusLadder false 5 5 = "Reorder Required" ∧
    getProductStockStatus false 5 (some 5) ≠ specStockStatusLadder false 5 5 := by
  refine ⟨rfl, rfl, ?_⟩
  decide

/-- C2 amended: products.js computes the ladder with Low Stock tested
before Reorder Required (so `0 < unitsInStock < 10` always yields
`"Low Stock"` even when `unitsInStock ≤ reorderLevel`, and
`"Reorder Required"` is returned exactly for
`10 ≤ unitsInStock ≤ reorderLevel` on non-discontinued products), while
categories.js omits the Reorder Required branch entirely. Discontinued
always wins, and `unitsInStock = 0` on a non-discontinued product always
yields `"Out of Stock"`, in both variants. -/
theorem c2_amended (d : Bool) (u r : Nat) :
    getProductStockStatus d u (some r) = productsLadderAmended d u r ∧
    (¬ d = true → 0 < u → u < 10 →
      getProductStockStatus d u (some r) = "Low Stock") ∧
    (¬ d = true → 10 ≤ u → u ≤ r →
      getProductStockStatus d u (some r) = "Reorder Required") ∧
    (d = true → getProductStockStatus d u (some r) = "Discontinued" ∧
      categoriesGetProductStockStatus d u = "Discontinued") ∧
    (¬ d = true → u = 0 → getProductStockStatus d u (some r) = "Out of Stock" ∧
      categoriesGetProductStockStatus d u = "Out of Stock") := by
  unfold getProductStockStatus productsLadderAmended categoriesGetProductStockStatus
  refine ⟨rfl, ?_, ?_, ?_, ?_⟩
  · intro hd hu h10
    simp [hd, Nat.pos_iff_ne_zero.mp hu, h10]
  · intro hd hu hr
    simp [hd, show ¬ u = 0 by omega, show ¬ u < 10 by omega, Option.getD, hr]
  · intro hd
    simp [hd]
  · intro hd hu
    simp [hd, hu]

/-- Closed instance discharging the hypotheses of `c2_amended` at a
concrete input. -/
theorem c2_amended_witness :
    getProductStockStatus false 12 (some 20) = productsLadderAmended false 12 20 ∧
    getProductStockStatus false 12 (some 20) = "Reorder Required" := by
  refine ⟨(c2_amended false 12 20).1, ?_⟩
  exact (c2_amended false 12 20).2.2.1 (by decide) (by decide) (by decide)

/-! ### C5 -/

/-- C5: for valid `page ≥ 1` and `limit ∈ [1,100]`, the envelope's
`pages` equals `⌈total / limit⌉`, is `0` iff `total = 0`, satisfies the
ceiling bounds `total ≤ pages * limit` and (when `total > 0`)
`(pages - 1) * limit < total`, and the store offset is
`(page - 1) * limit`. -/
theorem c5_pagination (page limit total : Nat)
    (hpage : 1 ≤ page) (hlo : 1 ≤ limit) (hhi : limit ≤ 100) :
    totalPagesOf total limit = Nat.ceil ((total : ℚ) / (limit : ℚ)) ∧
    (totalPagesOf total limit = 0 ↔ total = 0) ∧
    total ≤ totalPagesOf total limit * limit ∧
    (0 < total → (totalPagesOf total limit - 1) * limit < total) ∧
    offsetOf page limit = (page - 1) * limit := by
  have hl0 : (0 : ℚ) < (limit : ℚ) := by exact_mod_cast hlo
  refine ⟨rfl, ?_, ?_, ?_, rfl⟩
  · constructor
    · intro h
      have := Nat.ceil_eq_zero.mp h
      have hq : (total : ℚ) ≤ 0 := by
        by_contra hc
        push_neg at hc
        exact absurd (div_pos hc hl0) (not_lt.mpr this)
      exact_mod_cast le_antisymm hq (by positivity)
    · intro h
      subst h
      simp [totalPagesOf]
  · have h1 : ((total : ℚ) / (limit : ℚ)) ≤ (totalPagesOf total limit : ℚ) :=
      Nat.le_ceil _
    have h2 : (total : ℚ) ≤ (totalPagesOf total limit : ℚ) * (limit : ℚ) :=
      (div_le_iff₀ hl0).mp h1
    exact_mod_cast h2
  · intro htot
    have hceil : (totalPagesOf total limit : ℚ) <
        (total : ℚ) / (limit : ℚ) + 1 := by
      have := Nat.ceil_lt_add_one
        (show (0 : ℚ) ≤ (total : ℚ) / (limit : ℚ) by positivity)
      exact_mod_cast this
    have hpos : 0 < totalPagesOf total limit := by
      rcases Nat.eq_zero_or_pos (totalPagesOf total limit) with h | h
      · exfalso
        have h0 := Nat.ceil_eq_zero.mp h
        have : (0 : ℚ) < (total : ℚ) / (limit : ℚ) :=
          div_pos (by exact_mod_cast htot) hl0
        exact absurd this (not_lt.mpr h0)
      · exact h
    have hsub : ((totalPagesOf total limit - 1 : ℕ) : ℚ) =
        (totalPagesOf total limit : ℚ) - 1 := by
      have h1 : 1 ≤ totalPagesOf total limit := hpos
      push_cast [h1]
      ring
    have h3 : ((totalPagesOf total limit - 1 : ℕ) : ℚ) * (limit : ℚ) <
        (total : ℚ) := by
      rw [hsub]
      have : (totalPagesOf total limit : ℚ) - 1 < (total : ℚ) / (limit : ℚ) :=
        by linarith
      calc ((totalPagesOf total limit : ℚ) - 1) * (limit : ℚ)
          < ((total : ℚ) / (limit : ℚ)) * (limit : ℚ) := by
            exact mul_lt_mul_of_pos_right this hl0
        _ = (total : ℚ) := div_mul_cancel₀ _ (ne_of_gt hl0)
    exact_mod_cast h3

/-- Closed instance discharging the hypotheses of `c5_pagination` at a
concrete input. -/
theorem c5_pagination_witness :
    (1 ≤ 3 ∧ 1 ≤ 10 ∧ 10 ≤ 100) ∧
    (totalPagesOf 25 10 = 0 ↔ (25 : Nat) = 0) ∧
    offsetOf 3 10 = (3 - 1) * 10 := by
  have h := c5_pagination 3 10 25 (by decide) (by decide) (by decide)
  exact ⟨⟨by decide, by decide, by decide⟩, h.2.1, h.2.2.2.2⟩

/-! ### C7 -/

/-- C7: for every `now` and `hireDate`, `yearsOfService` is
`⌊(now - hire) / 365.25 days⌋` (average Gregorian year, not calendar
subtraction) — the first conjunct holds unconditionally — and in
particular an employee hired 10 years and 100 days ago (10 calendar years
span 3652 or 3653 days) has exactly 10 years of service. -/
theorem c7_years_of_service (nowMs hireMs : ℤ) :
    getYearsOfService nowMs hireMs =
      ⌊((nowMs - hireMs : ℤ) : ℚ) / ((msPerYear : ℤ) : ℚ)⌋ ∧
    (∀ d : ℤ, 3652 ≤ d → d ≤ 3653 →
      nowMs - hireMs = (d + 100) * msPerDay →
      getYearsOfService nowMs hireMs = 10) := by
  have hediv : getYearsOfService nowMs hireMs = (nowMs - hireMs) / msPerYear := by
    unfold getYearsOfService
    exact Int.fdiv_eq_ediv _ (by norm_num [msPerYear])
  constructor
  · rw [hediv]
    have hcast : ((msPerYear : ℤ) : ℚ) = ((31557600000 : ℕ) : ℚ) := by
      norm_num [msPerYear]
    rw [hcast, Rat.floor_intCast_div_natCast]
    norm_num [msPerYear]
  · intro d h1 h2 hspan
    rw [hediv]
    unfold msPerYear
    unfold msPerDay at hspan
    omega

/-- Closed instance discharging the hypotheses of `c7_years_of_service`:
hired 3753 days (10 leap-inclusive years and 100 days) ago. -/
theorem c7_years_of_service_witness :
    getYearsOfService (3753 * 86400000) 0 = 10 :=
  (c7_years_of_service (3753 * 86400000) 0).2 3653 (by decide) (by decide)
    (by norm_num [msPerDay])

/-! ### C6 -/

/-- C6 counterexample: on 2026-10-12, an employee born 1995-12-01 has age
exactly 30 (their birthday has not yet occurred this year), yet the
`maxAge=30` filter excludes them: the code's date bound is not equivalent
to `age ≤ maxAge` at the boundary. -/
theorem c6_counterexample :
    getAge ⟨1995, 12, 1⟩ ⟨2026, 10, 12⟩ = 30 ∧
    ¬ maxAgeFilterOk ⟨2026, 10, 12⟩ 30 ⟨1995, 12, 1⟩ := by
  decide

/-- C6 amended: `maxAge` yields the inclusive bound
`birthDate >= (today.year - maxAge, today.month, today.day)` and `minAge`
the inclusive bound `birthDate <= (today.year - minAge, today.month,
today.day)`. The `minAge` filter is exactly `age ≥ minAge`, consistent
with the displayed age; the `maxAge` filter however admits exactly the
employees with `age < maxAge` plus those turning `maxAge` today — an
employee whose age is `maxAge` but whose birthday is not today is
excluded. -/
theorem c6_amended (today birth : SimpleDate) (a : ℤ) :
    (maxAgeFilterOk today a birth ↔
      (getAge birth today < a ∨ (getAge birth today = a ∧
        birth.month = today.month ∧ birth.day = today.day))) ∧
    (minAgeFilterOk today a birth ↔ a ≤ getAge birth today) := by
  obtain ⟨Y, M, D⟩ := today
  obtain ⟨y, m, d⟩ := birth
  unfold maxAgeFilterOk minAgeFilterOk ageBoundDate dateLe getAge
  simp only
  split_ifs with h
  · constructor <;> omega
  · constructor <;> omega

/-! ### C3 -/

/-- C3 counterexample: for the filter pair `inStock=false`, `lowStock=true`
and a row with five units in stock, the combined where-clause matches the
row although `inStock=false` alone does not — the combined result is not
the intersection, because the lowStock branch overwrites
`where.unitsInStock`. -/
theorem c3_counterexample :
    rowMatches
      (buildWhere (pairQuery (ProductFilter.inStock false)
        (ProductFilter.lowStock true))) exampleRow = true ∧
    rowMatches (buildWhere (queryOf (ProductFilter.inStock false)))
      exampleRow = false := by
  decide

/-- The sequential where-clause construction in closed form: each query
parameter lands in its own field, except that `lowStock=true` overwrites
whatever the `inStock` branch put into `unitsInStock`. -/
theorem buildWhere_closed (q : ProductListQuery) :
    buildWhere q =
      { searchQ := q.search
        categoryId := q.categoryId
        supplierId := q.supplierId
        discontinued := q.discontinued
        unitsInStock := if q.lowStock = some true
          then some StockCond.between
          else q.inStock.map inStockCond
        priceGte := q.minPrice
        priceLte := q.maxPrice } := by
  obtain ⟨s, c, su, di, inS, lo, mi, ma⟩ := q
  unfold buildWhere
  rcases s <;> rcases c <;> rcases su <;> rcases di <;> rcases inS <;>
    rcases lo with _ | b <;> rcases mi <;> rcases ma <;>
    first
      | rfl
      | (cases b <;> rfl)

/-- C3 amended: for every pair of filters on distinct parameters other
than the pair `{inStock=false, lowStock=true}`, the rows matched by the
where-clause built from both filters are exactly the intersection of the
rows matched by each filter alone. For `{inStock=false, lowStock=true}`
the `lowStock` assignment overwrites the `inStock` predicate and the
combined clause is equivalent to `lowStock=true` alone. -/
theorem c3_amended (f g : ProductFilter) (row : ProductRow)
    (hparam : paramIdx f ≠ paramIdx g)
    (hcol : collidesB f g = false) :
    rowMatches (buildWhere (pairQuery f g)) row =
      (rowMatches (buildWhere (queryOf f)) row &&
        rowMatches (buildWhere (queryOf g)) row) := by
  cases f <;> cases g <;>
    simp_all [buildWhere_closed, pairQuery, queryOf, setFilter, rowMatches,
      paramIdx, collidesB, inStockCond, Bool.and_assoc, Bool.and_comm,
      Bool.and_left_comm, Bool.and_self]
  all_goals rename_i b c
  all_goals cases b <;> cases c <;>
    simp_all [stockCondHolds, Bool.and_assoc, Bool.and_self]

/-- Closed instance discharging the hypotheses of `c3_amended` at a
concrete input: `categoryId=1` with `minPrice=10`. -/
theorem c3_amended_witness :
    paramIdx (ProductFilter.categoryId 1) ≠ paramIdx (ProductFilter.minPrice 10) ∧
    collidesB (ProductFilter.categoryId 1) (ProductFilter.minPrice 10) = false ∧
    rowMatches
      (buildWhere (pairQuery (ProductFilter.categoryId 1)
        (ProductFilter.minPrice 10))) exampleRow =
      (rowMatches (buildWhere (queryOf (ProductFilter.categoryId 1))) exampleRow &&
        rowMatches (buildWhere (queryOf (ProductFilter.minPrice 10))) exampleRow) :=
  ⟨by decide, by decide,
    c3_amended (ProductFilter.categoryId 1) (ProductFilter.minPrice 10)
      exampleRow (by decide) (by decide)⟩

/-! ### C1 -/

/-- C1 is wrong of the code: `POST /orders` opens a transaction and then
returns the `Customer not found` validation failure without committing or
rolling it back, and `DELETE /orders/:id` likewise returns
`Cannot delete shipped orders` (and its 404) with the transaction still
open. Evaluated here at the concrete failing inputs. -/
theorem c1_transaction_left_open :
    (postOrder c1Db 0 c1Body 99).resp = ⟨400, "Customer not found"⟩ ∧
    (postOrder c1Db 0 c1Body 99).tx = TxOutcome.leftOpen ∧
    (deleteOrder c1Db 7).resp = ⟨400, "Cannot delete shipped orders"⟩ ∧
    (deleteOrder c1Db 7).tx = TxOutcome.leftOpen ∧
    (deleteOrder c1Db 99).resp.status = 404 ∧
    (deleteOrder c1Db 99).tx = TxOutcome.leftOpen := by
  decide

/-! ### C9 -/

/-- C9: an order whose `shippedDate` is set is immutable: `PUT` with a
body that does not carry that same `shippedDate` answers 400
`Cannot modify shipped orders` and leaves the store unchanged, and
`DELETE` answers 400 `Cannot delete shipped orders` and leaves the order
and its details unchanged. -/
theorem c9_shipped_order_immutable (db : Db) (id : Nat) (o : OrderRow)
    (d : Int) (b : PutBody)
    (hfind : findOrder db id = some o)
    (hship : o.shippedDate = some d)
    (hbody : b.shippedDate ≠ o.shippedDate) :
    putOrder db id b = ⟨⟨400, "Cannot modify shipped orders"⟩, db⟩ ∧
    deleteOrder db id = ⟨⟨400, "Cannot delete shipped orders"⟩,
      TxOutcome.leftOpen, db⟩ := by
  have hisSome : o.shippedDate.isSome = true := by simp [hship]
  unfold putOrder deleteOrder
  rw [hfind]
  simp [hisSome, hbody]

/-- Closed instance discharging the hypotheses of
`c9_shipped_order_immutable` on the shipped order 7 of `c9Db`. -/
theorem c9_shipped_order_immutable_witness :
    putOrder c9Db 7 ⟨none, none, none, none, some 9⟩ =
      ⟨⟨400, "Cannot modify shipped orders"⟩, c9Db⟩ ∧
    deleteOrder c9Db 7 = ⟨⟨400, "Cannot delete shipped orders"⟩,
      TxOutcome.leftOpen, c9Db⟩ :=
  c9_shipped_order_immutable c9Db 7 ⟨7, 2, some 1, 4, some 100, none, some 500, 3⟩
    500 ⟨none, none, none, none, some 9⟩ (by decide) (by decide) (by decide)

/-! ### C10 -/

/-- C10: every order created by `POST /orders` has a non-null `orderDate`
(defaulted to `now` when the body omits it), so its derived status is
never `Pending`: it is `Shipped` when the body carried a `shippedDate`
and `Processing` otherwise. -/
theorem c10_created_order_never_pending (db : Db) (now : Int)
    (b : OrderReqBody) (newOrderId : Nat) (o : OrderRow)
    (h : (postOrder db now b newOrderId).created = some o) :
    o.orderDate.isSome = true ∧
    getOrderStatus o = (if b.shippedDate.isSome then "Shipped" else "Processing") ∧
    getOrderStatus o ≠ "Pending" := by
  unfold postOrder at h
  split_ifs at h <;> simp only [Option.some.injEq] at h
  subst h
  refine ⟨rfl, ?_, ?_⟩
  · cases hs : b.shippedDate <;>
      simp [getOrderStatus, createdOrder, hs]
  · cases hs : b.shippedDate <;>
      simp [getOrderStatus, createdOrder, hs]

/-- Closed instance discharging the hypothesis of
`c10_created_order_never_pending` with a valid body against `c9Db`. -/
theorem c10_created_order_never_pending_witness :
    getOrderStatus (createdOrder c10Body 0 42) = "Processing" := by
  have h := c10_created_order_never_pending c9Db 0 c10Body 42
    (createdOrder c10Body 0 42) (by decide)
  have h2 := h.2.1
  simpa using h2

/-! ### C8 -/

/-- C8 counterexample: employee 1 of `c8Db` has exactly one dependent
order, and `DELETE /employees/1` fails 400 whatever the caller sends —
the handler declares no `force` parameter, so `force=true` cannot make
the delete succeed, contrary to the claim's override branch. -/
theorem c8_counterexample :
    empOrderCount c8Db 1 = 1 ∧
    deleteEmployee c8Db 1 =
      ⟨⟨400, "Cannot delete employee with 1 orders. Reassign orders first."⟩,
        c8Db⟩ := by
  decide

/-- C8 amended: without the override flag, a delete with dependent rows
answers 400 with the exact dependent count and changes nothing, for
products, categories, employees and customers alike. With `force=true`
the delete succeeds with the documented policy for products (order
details cascaded) and categories (`categoryId` set to null) only;
employee and customer deletes accept no override flag and always fail 400
while dependents exist. -/
theorem c8_amended (db : Db) (id : Nat) :
    (∀ p, db.products.find? (fun x => x.productId == id) = some p →
      0 < prodOrderDetailCount db id →
      deleteProduct db id false =
        ⟨⟨400, prodBlockMsg (prodOrderDetailCount db id)⟩,
          TxOutcome.rolledBack, db⟩ ∧
      deleteProduct db id true =
        ⟨⟨200, "Product deleted successfully"⟩, TxOutcome.committed,
          { db with
              orderDetails := db.orderDetails.filter (fun x => x.productId != id)
              products := db.products.filter (fun x => x.productId != id) }⟩) ∧
    (id ∈ db.categories → 0 < catProductCount db id →
      deleteCategory db id false =
        ⟨⟨400, catBlockMsg (catProductCount db id)⟩,
          TxOutcome.rolledBack, db⟩ ∧
      deleteCategory db id true =
        ⟨⟨200, "Category deleted successfully"⟩, TxOutcome.committed,
          { db with
              products := db.products.map (fun p =>
                if p.categoryId == some id then { p with categoryId := none } else p)
              categories := db.categories.filter (fun c => c != id) }⟩) ∧
    (0 < empOrderCount db id →
      deleteEmployee db id = ⟨⟨400, empBlockMsg (empOrderCount db id)⟩, db⟩) ∧
    (0 < custOrderCount db id →
      deleteCustomer db id = ⟨⟨400, custBlockMsg (custOrderCount db id)⟩, db⟩) := by
  refine ⟨?_, ?_, ?_, ?_⟩
  · intro p hp hcnt
    unfold deleteProduct
    rw [hp]
    constructor
    · rw [if_pos ⟨hcnt, by decide⟩]
    · rw [if_neg (fun h => h.2 rfl)]
      simp [hcnt]
  · intro hmem hcnt
    unfold deleteCategory
    constructor
    · rw [if_pos hmem, if_pos ⟨hcnt, by decide⟩]
    · rw [if_pos hmem, if_neg (fun h => h.2 rfl)]
      simp [hcnt]
  · intro hcnt
    unfold deleteEmployee
    rw [if_pos hcnt]
  · intro hcnt
    unfold deleteCustomer
    rw [if_pos hcnt]

/-- Closed instance discharging the hypotheses of `c8_amended`: product 5
of `c8ForceDb` has one dependent order detail; the unforced delete is the
400 with count 1, the forced delete succeeds and cascades. -/
theorem c8_amended_witness :
    deleteProduct c8ForceDb 5 false =
      ⟨⟨400, prodBlockMsg 1⟩, TxOutcome.rolledBack, c8ForceDb⟩ ∧
    (deleteProduct c8ForceDb 5 true).resp.status = 200 ∧
    (deleteProduct c8ForceDb 5 true).db.orderDetails = [] := by
  have h := (c8_amended c8ForceDb 5).1 ⟨5, "Chai", some 3, false⟩
    (by decide) (by decide)
  refine ⟨?_, ?_, ?_⟩
  · have := h.1
    simpa [show prodOrderDetailCount c8ForceDb 5 = 1 by decide] using this
  · rw [h.2]
  · rw [h.2]
    decide

end NW
